import Mathlib

/-!
Verification of the easytcp routing/middleware engine and server accept loop.

The definitions below are a shallow embedding of the Go source:
* `src/router/router.go` — `Router`, `Register`, `RegisterMiddleware`,
  `wrapHandlers`, `handleReq`, `Loop`, `defaultHandler`.
* `src/unnamed/part_001` — the server's `keepAccepting` loop, modelled as the
  sequential event trace of the accept goroutine.

Handlers in Go are arbitrary effectful functions `(session, *Request) ->
(*Response, error)`. We model the world a handler can observe and mutate as an
explicit `SessState` (outbound responses enqueued via `SendResp`, a closed flag
for the connection's write side, and an abstract side-effect trace used to
observe execution order), and a handler as a state-passing function. Goroutines
spawned by `Loop` (one per request) are sequentialized; properties about real
concurrent scheduling are out of scope of this embedding.
-/

/-- Abstract response payload (`*packet.Response`); only its identity matters. -/
abbrev Response := Nat

/-- Go `error` values, modelled as strings (matching `fmt.Errorf` formatting). -/
abbrev GoErr := String

/-- `*packet.Request`: a message id plus opaque payload. `handleReq` only reads
the id. -/
structure Request where
  id : Nat
  data : Nat
deriving DecidableEq, Repr

/-- The state of one session as visible to handlers and the router:
`sent` is the list of responses enqueued on the outbound path via `SendResp`
(in order), `sendClosed` says the connection is closed for writes (so
`SendResp` fails), and `trace` is an abstract log of handler/middleware side
effects, used to observe execution order. -/
structure SessState where
  sent : List Response
  sendClosed : Bool
  trace : List Nat
deriving DecidableEq, Repr

/-- `HandlerFunc` from router.go: takes the session (state) and a request,
returns `(*packet.Response, error)` — both nilable — plus the updated state. -/
abbrev HandlerFunc := SessState → Request → SessState × Option Response × Option GoErr

/-- `MiddlewareFunc` from router.go: a handler transformer. -/
abbrev MiddlewareFunc := HandlerFunc → HandlerFunc

/-- `defaultHandler` from router.go: returns `(nil, nil)`. -/
def defaultHandler : HandlerFunc := fun s _ => (s, none, none)

/-- Modelled from the spec (§4.3): `Session.SendResp` enqueues an outbound
message, "failing explicitly if the connection is already closed". The session
implementation is not under src/; only the router's use of it is. -/
def SendResp (s : SessState) (resp : Response) : SessState × Option GoErr :=
  if s.sendClosed then (s, some "session closed")
  else ({ s with sent := s.sent ++ [resp] }, none)

/-- The `Router` struct from router.go: `handlerMapper` and
`middlewaresMapper` are the two `sync.Map`s (modelled as partial maps), and
`globalMiddlewares` the global middleware slice. -/
structure Router where
  handlerMapper : Nat → Option HandlerFunc
  middlewaresMapper : Nat → Option (List MiddlewareFunc)
  globalMiddlewares : List MiddlewareFunc

/-- `New` from router.go: empty maps, empty global middleware slice. -/
def Router.New : Router :=
  { handlerMapper := fun _ => none
    middlewaresMapper := fun _ => none
    globalMiddlewares := [] }

/-- `Register` from router.go. `h` and the entries of `m` are nilable
(`Option`). The handler is stored only when non-nil; the non-nil middlewares
are collected into a fresh slice `ms`, which is stored (replacing any previous
entry) only when non-empty. -/
def Router.Register (r : Router) (id : Nat) (h : Option HandlerFunc)
    (m : List (Option MiddlewareFunc)) : Router :=
  let r1 : Router :=
    match h with
    | some hf => { r with handlerMapper := fun k => if k = id then some hf else r.handlerMapper k }
    | none => r
  if m.length ≠ 0 then
    let ms := m.filterMap (fun mm => mm)
    if ms.length ≠ 0 then
      { r1 with middlewaresMapper := fun k => if k = id then some ms else r1.middlewaresMapper k }
    else r1
  else r1

/-- `RegisterMiddleware` from router.go: appends the non-nil arguments to
`globalMiddlewares`, in order. -/
def Router.RegisterMiddleware (r : Router) (m : List (Option MiddlewareFunc)) : Router :=
  if m.length ≠ 0 then
    { r with globalMiddlewares := r.globalMiddlewares ++ m.filterMap (fun mm => mm) }
  else r

/-- `wrapHandlers` from router.go: substitutes `defaultHandler` for a nil
handler, then wraps `wrapped = middles[0](middles[1](... middles[n-1](handler))))`
by the downward loop `for i := len(middles) - 1; i >= 0; i--`. -/
def wrapHandlers (handler : Option HandlerFunc) (middles : List MiddlewareFunc) : HandlerFunc :=
  let h := match handler with
    | none => defaultHandler
    | some hf => hf
  List.foldr (fun m w => m w) h middles

/-- The `middles` slice computed inside `handleReq`: the global middlewares,
with the per-route list for the id appended when one is stored. -/
def Router.middlesFor (r : Router) (id : Nat) : List MiddlewareFunc :=
  match r.middlewaresMapper id with
  | some v => r.globalMiddlewares ++ v
  | none => r.globalMiddlewares

/-- The wrapped call chain `handleReq` builds for a given id. -/
def Router.wrappedFor (r : Router) (id : Nat) : HandlerFunc :=
  wrapHandlers (r.handlerMapper id) (r.middlesFor id)

/-- The tail of `handleReq` after the chain is built: call the chain; on
handler error return the wrapped error (no send); on nil response return nil;
otherwise `SendResp`, wrapping its error if it fails. -/
def dispatchWith (wrapped : HandlerFunc) (s : SessState) (req : Request) :
    SessState × Option GoErr :=
  let out := wrapped s req
  let s1 := out.1
  match out.2.2 with
  | some e => (s1, some ("handler err: " ++ e))
  | none =>
    match out.2.1 with
    | none => (s1, none)
    | some resp =>
      match SendResp s1 resp with
      | (s2, some e) => (s2, some ("session send response err: " ++ e))
      | (s2, none) => (s2, none)

/-- `handleReq` from router.go: look up handler and middlewares for the
request id, wrap, call, and send the response if any. -/
def Router.handleReq (r : Router) (s : SessState) (req : Request) :
    SessState × Option GoErr :=
  dispatchWith (r.wrappedFor req.id) s req

/-- `Loop` from router.go over a finite inbound source: the list is the
sequence of values received from `s.RecvReq()` (a `none` entry is a nil
request), and the end of the list is the channel closing (`!ok`), where the
loop breaks. Each non-nil request is dispatched through `handleReq`; the
returned error is only logged. The per-request goroutines are sequentialized. -/
def Router.Loop (r : Router) (s : SessState) (reqs : List (Option Request)) : SessState :=
  match reqs with
  | [] => s
  | none :: rest => r.Loop s rest
  | some req :: rest => r.Loop (r.handleReq s req).1 rest

/-- A marker middleware: appends `i` to the session trace, then calls `next`.
Used to observe middleware execution order. -/
def markMw (i : Nat) : MiddlewareFunc :=
  fun next => fun s req => next { s with trace := s.trace ++ [i] } req

/-- A marker handler: appends `i` to the session trace and returns `(nil, nil)`. -/
def markHandler (i : Nat) : HandlerFunc :=
  fun s _ => ({ s with trace := s.trace ++ [i] }, none, none)

/-- A handler returning the response `v` with nil error. -/
def respHandler (v : Response) : HandlerFunc :=
  fun s _ => (s, some v, none)

/-- A handler returning a non-nil error `e` (and nil response). -/
def errHandler (e : GoErr) : HandlerFunc :=
  fun s _ => (s, none, some e)

/-- Modelled from the spec: a configurable not-found handler. The registration
API for it (the `NotFoundHandler` seen in the repository's benchmark callers)
is not under src/; per the spec, dispatch "substitute[s] the configured
not-found handler if absent (itself a normal handler)". `handleReqNF` is
`Router.handleReq` with that substitution; `notFound = none` means none is
configured, in which case the behavior is that of src's `handleReq`
(`defaultHandler`, which drops the request). -/
def Router.handleReqNF (r : Router) (notFound : Option HandlerFunc)
    (s : SessState) (req : Request) : SessState × Option GoErr :=
  let handler : Option HandlerFunc :=
    match r.handlerMapper req.id with
    | some h => some h
    | none => notFound
  dispatchWith (wrapHandlers handler (r.middlesFor req.id)) s req

/-- Events performed by the server's accept goroutine (`keepAccepting` in
src/unnamed/part_001), indexed by the ordinal of the accepted connection. -/
inductive AcceptEv where
  | accept (i : Nat)
  | spawnRead (i : Nat)
  | spawnWrite (i : Nat)
  | connectHook (i : Nat)
  | awaitClosed (i : Nat)
  | disconnectHook (i : Nat)
deriving DecidableEq, Repr

/-- One iteration of the `keepAccepting` loop body, in source order:
`listener.Accept`, `go conn.KeepReading()`, `go conn.KeepWriting()`, the
connect hook if set, the blocking receive `<-conn.Closed`, then the disconnect
hook if set. The two `go` statements are recorded as spawn events; everything
else runs on the accept goroutine itself. -/
def acceptIter (hasConn hasDisc : Bool) (i : Nat) : List AcceptEv :=
  [AcceptEv.accept i, AcceptEv.spawnRead i, AcceptEv.spawnWrite i]
    ++ (if hasConn then [AcceptEv.connectHook i] else [])
    ++ [AcceptEv.awaitClosed i]
    ++ (if hasDisc then [AcceptEv.disconnectHook i] else [])

/-- The sequential event trace of the accept goroutine of `keepAccepting`
over `n` accepted connections (numbered from `i`), under the assumption that
every accepted connection eventually closes (otherwise the goroutine blocks
forever at the `<-conn.Closed` of the open connection). -/
def keepAcceptingFrom (hasConn hasDisc : Bool) (i n : Nat) : List AcceptEv :=
  match n with
  | 0 => []
  | Nat.succ m => acceptIter hasConn hasDisc i ++ keepAcceptingFrom hasConn hasDisc (i + 1) m

/-! ## Helper lemmas about `Register` (shared by several claims) -/

/-- `Register` with a non-nil handler stores it for `id`. -/
theorem Register_handlerMapper_some (r : Router) (id : Nat) (hf : HandlerFunc)
    (m : List (Option MiddlewareFunc)) :
    (r.Register id (some hf) m).handlerMapper id = some hf := by
  show (if m.length ≠ 0 then
      (if (m.filterMap (fun mm => mm)).length ≠ 0 then
        { r with
          handlerMapper := (fun k => if k = id then some hf else r.handlerMapper k),
          middlewaresMapper := (fun k => if k = id then some (m.filterMap (fun mm => mm))
            else r.middlewaresMapper k) }
       else
        { r with handlerMapper := fun k => if k = id then some hf else r.handlerMapper k })
    else
      { r with handlerMapper := fun k => if k = id then some hf else r.handlerMapper k
        }).handlerMapper id = some hf
  split_ifs <;> simp

/-- `Register` with a nil handler leaves the handler map untouched. -/
theorem Register_handlerMapper_none (r : Router) (id : Nat)
    (m : List (Option MiddlewareFunc)) :
    (r.Register id none m).handlerMapper = r.handlerMapper := by
  show (if m.length ≠ 0 then
      (if (m.filterMap (fun mm => mm)).length ≠ 0 then
        { r with middlewaresMapper := fun k => if k = id then some (m.filterMap (fun mm => mm))
            else r.middlewaresMapper k }
       else r)
    else r).handlerMapper = r.handlerMapper
  split_ifs <;> rfl

/-- The shape of the middleware-map update common to both handler cases of
`Register`: `r1` is the router after the handler step, whose middleware map
still equals the original one. -/
theorem Register_mwAux (rO r1 : Router) (hEq : r1.middlewaresMapper = rO.middlewaresMapper)
    (id : Nat) (m : List (Option MiddlewareFunc)) :
    (if m.length ≠ 0 then
       (if (m.filterMap (fun mm => mm)).length ≠ 0 then
          { r1 with middlewaresMapper := fun k => if k = id then some (m.filterMap (fun mm => mm))
              else r1.middlewaresMapper k }
        else r1)
     else r1).middlewaresMapper =
      (if (m.filterMap (fun mm => mm)).length = 0 then rO.middlewaresMapper
       else fun k => if k = id then some (m.filterMap (fun mm => mm))
         else rO.middlewaresMapper k) := by
  by_cases hL : (m.filterMap (fun mm => mm)).length = 0
  · rw [if_pos hL]
    by_cases hm : m.length = 0
    · rw [if_neg (not_not_intro hm)]
      exact hEq
    · rw [if_pos hm, if_neg (not_not_intro hL)]
      exact hEq
  · have hm : m.length ≠ 0 := by
      intro h0
      apply hL
      rw [List.length_eq_zero.mp h0]
      rfl
    rw [if_neg hL, if_pos hm, if_pos hL]
    simp only [hEq]

/-- What `Register` does to the middleware map: when the non-nil middlewares
of `m` form a non-empty list, that list replaces the entry for `id`; otherwise
the map is untouched. -/
theorem Register_middlewaresMapper (r : Router) (id : Nat) (h : Option HandlerFunc)
    (m : List (Option MiddlewareFunc)) :
    (r.Register id h m).middlewaresMapper =
      (if (m.filterMap (fun mm => mm)).length = 0 then r.middlewaresMapper
       else fun k => if k = id then some (m.filterMap (fun mm => mm))
         else r.middlewaresMapper k) := by
  cases h with
  | none => exact Register_mwAux r r rfl id m
  | some hf =>
    exact Register_mwAux r
      { r with handlerMapper := fun k => if k = id then some hf else r.handlerMapper k } rfl id m

/-! ## Claims about registration -/

/-- Claim C1 (amended): after `Register(id, h, ms...)` with non-nil `h`, the
handler stored for `id` is `h` (last Register wins). The middleware lists are
not additive: when `ms` contains at least one non-nil middleware, the list
stored for `id` becomes exactly the non-nil entries of `ms`, replacing any
previously stored list; when `ms` is empty or all-nil, the previously stored
list is unchanged. -/
theorem claim_C1 (r : Router) (id : Nat) (hf : HandlerFunc)
    (ms : List (Option MiddlewareFunc)) :
    ((r.Register id (some hf) ms).handlerMapper id = some hf)
    ∧ ((r.Register id (some hf) ms).middlewaresMapper id =
        (if (ms.filterMap (fun mm => mm)).length = 0 then r.middlewaresMapper id
         else some (ms.filterMap (fun mm => mm)))) := by
  refine ⟨Register_handlerMapper_some r id hf ms, ?_⟩
  rw [Register_middlewaresMapper r id (some hf) ms]
  by_cases hL : (ms.filterMap (fun mm => mm)).length = 0
  · rw [if_pos hL, if_pos hL]
  · rw [if_neg hL, if_neg hL]
    simp

/-- Claim C1, counterexample to the claim as stated: registering middleware
`markMw 1` for id 5 and then `markMw 2` for id 5 does not leave the list
`[markMw 1, markMw 2]` stored (the second call replaces the first list). -/
theorem claim_C1_counterexample :
    ¬ (((Router.New.Register 5 none [some (markMw 1)]).Register 5 none
        [some (markMw 2)]).middlewaresMapper 5 = some [markMw 1, markMw 2]) := by
  intro hEq
  have e : ((Router.New.Register 5 none [some (markMw 1)]).Register 5 none
      [some (markMw 2)]).middlewaresMapper 5 = some [markMw 2] := rfl
  rw [e] at hEq
  have hlen := congrArg (fun o => (Option.getD o []).length) hEq
  simp at hlen

/-- Claim C9: `Register` filters nil arguments without disturbing existing
registrations: a nil handler leaves the handler entry unchanged; an empty or
all-nil middleware argument list leaves the middleware entry unchanged; and
the middleware entry is only ever left unchanged or replaced by exactly the
non-nil entries of the argument list (nil entries are never stored). -/
theorem claim_C9 (r : Router) (id : Nat) (h : Option HandlerFunc)
    (ms : List (Option MiddlewareFunc)) :
    ((r.Register id none ms).handlerMapper id = r.handlerMapper id)
    ∧ ((ms.filterMap (fun mm => mm)).length = 0 →
        (r.Register id h ms).middlewaresMapper id = r.middlewaresMapper id)
    ∧ (((r.Register id h ms).middlewaresMapper id = r.middlewaresMapper id)
       ∨ ((r.Register id h ms).middlewaresMapper id = some (ms.filterMap (fun mm => mm)))) := by
  refine ⟨by rw [Register_handlerMapper_none r id ms], ?_, ?_⟩
  · intro hL
    rw [Register_middlewaresMapper r id h ms, if_pos hL]
  · rw [Register_middlewaresMapper r id h ms]
    by_cases hL : (ms.filterMap (fun mm => mm)).length = 0
    · left
      rw [if_pos hL]
    · right
      rw [if_neg hL]
      simp

/-- Claim C9, witness: concrete instance — registering a nil handler for id 5
leaves the (empty) handler entry unchanged, and registering with a single nil
middleware leaves the middleware entry unchanged. -/
theorem claim_C9_witness :
    ((Router.New.Register 5 none [none]).handlerMapper 5 = Router.New.handlerMapper 5)
    ∧ ((Router.New.Register 5 (some (markHandler 1)) [none]).middlewaresMapper 5
        = Router.New.middlewaresMapper 5) := by
  refine ⟨(claim_C9 Router.New 5 (some (markHandler 1)) [none]).1, ?_⟩
  exact (claim_C9 Router.New 5 (some (markHandler 1)) [none]).2.1 (by decide)

/-! ## Claims about the dispatch loop -/

/-- Claim C10: a nil request received from the inbound source is skipped by
`Loop`: the loop state is exactly as if the nil entry were absent (so no
handler runs and nothing is sent for it), and a nil request followed by the
channel closing leaves the session state untouched. -/
theorem claim_C10 (r : Router) (s : SessState) (rest : List (Option Request)) :
    r.Loop s (none :: rest) = r.Loop s rest ∧ r.Loop s [none] = s := by
  exact ⟨rfl, rfl⟩

/-- Claim C2: the call chain executed by dispatch is the nested wrap of the
global middlewares (registration order, outermost first) around the per-route
middlewares (registration order) around the base handler. First conjunct: the
single fold over `globals ++ route` equals the globals wrapped around the
route-wrapped handler. Second conjunct: with global markers `[g1, g2]`, route
markers `[r1, r2]` and marker handler `hid` registered for the request's id,
dispatch appends exactly `[g1, g2, r1, r2, hid]` to the side-effect trace, for
every starting state and request. -/
theorem claim_C2 :
    (∀ (oh : Option HandlerFunc) (gs rs : List MiddlewareFunc),
      wrapHandlers oh (gs ++ rs) = wrapHandlers (some (wrapHandlers oh rs)) gs)
    ∧ (∀ (g1 g2 r1 r2 hid : Nat) (s : SessState) (req : Request),
      ((Router.New.RegisterMiddleware [some (markMw g1), some (markMw g2)]).Register
          req.id (some (markHandler hid)) [some (markMw r1), some (markMw r2)]).handleReq s req
        = ({ s with trace := s.trace ++ [g1, g2, r1, r2, hid] }, none)) := by
  constructor
  · intro oh gs rs
    cases oh with
    | none =>
      show List.foldr (fun m w => m w) defaultHandler (gs ++ rs)
        = List.foldr (fun m w => m w) (List.foldr (fun m w => m w) defaultHandler rs) gs
      exact List.foldr_append _ _ _ _
    | some hf =>
      show List.foldr (fun m w => m w) hf (gs ++ rs)
        = List.foldr (fun m w => m w) (List.foldr (fun m w => m w) hf rs) gs
      exact List.foldr_append _ _ _ _
  · intro g1 g2 r1 r2 hid s req
    have hw : ((Router.New.RegisterMiddleware [some (markMw g1), some (markMw g2)]).Register
        req.id (some (markHandler hid))
        [some (markMw r1), some (markMw r2)]).wrappedFor req.id
        = markMw g1 (markMw g2 (markMw r1 (markMw r2 (markHandler hid)))) := by
      unfold Router.wrappedFor Router.middlesFor wrapHandlers
      simp [Router.Register, Router.RegisterMiddleware, Router.New]
    show dispatchWith _ s req = _
    rw [hw]
    simp [dispatchWith, markMw, markHandler]

/-- Claim C3, evaluation of the code at the failing input: in the accept
goroutine's own event sequence for two accepted connections (hooks set), the
connect hook of connection 0 runs before the wait on connection 0's closed
signal, and — the divergence — the wait on connection 0's closed signal comes
before the acceptance of connection 1. -/
theorem claim_C3_code_evaluation :
    (keepAcceptingFrom true true 0 2).indexOf (AcceptEv.connectHook 0) <
      (keepAcceptingFrom true true 0 2).indexOf (AcceptEv.awaitClosed 0)
    ∧ (keepAcceptingFrom true true 0 2).indexOf (AcceptEv.awaitClosed 0) <
      (keepAcceptingFrom true true 0 2).indexOf (AcceptEv.accept 1) := by
  decide

/-- Claim C4: for a request whose id has no registered handler, dispatch with
a configured not-found handler treats it exactly as if it were the registered
handler for that id; with none configured, dispatch agrees with src's
`handleReq`, which (in the absence of middlewares) drops the request: the
session state is untouched (nothing sent) and no error is returned, so the
connection stays open. -/
theorem claim_C4 (r : Router) (nf : HandlerFunc) (s : SessState) (req : Request)
    (hnone : r.handlerMapper req.id = none) :
    (r.handleReqNF (some nf) s req = (r.Register req.id (some nf) []).handleReq s req)
    ∧ (r.handleReqNF none s req = r.handleReq s req)
    ∧ (r.globalMiddlewares = [] → r.middlewaresMapper req.id = none →
        r.handleReq s req = (s, none)) := by
  refine ⟨?_, ?_, ?_⟩
  · unfold Router.handleReqNF Router.handleReq Router.wrappedFor Router.middlesFor
    rw [hnone]
    show dispatchWith (wrapHandlers (some nf) _) s req = dispatchWith (wrapHandlers _ _) s req
    have h1 : (r.Register req.id (some nf) []).handlerMapper req.id = some nf :=
      Register_handlerMapper_some r req.id nf []
    have h2 : (r.Register req.id (some nf) []).middlewaresMapper = r.middlewaresMapper :=
      Register_middlewaresMapper r req.id (some nf) []
    have h3 : (r.Register req.id (some nf) []).globalMiddlewares = r.globalMiddlewares := rfl
    rw [h1, h2, h3]
  · unfold Router.handleReqNF Router.handleReq Router.wrappedFor Router.middlesFor
    rw [hnone]
  · intro hg hm
    unfold Router.handleReq Router.wrappedFor Router.middlesFor
    rw [hnone, hm, hg]
    show dispatchWith defaultHandler s req = (s, none)
    rfl

/-- Claim C4, witness: on the empty router, a request with id 5 dispatched
with configured not-found handler `markHandler 7` behaves as if that handler
were registered for id 5; with none configured, the request is dropped. -/
theorem claim_C4_witness :
    (Router.New.handleReqNF (some (markHandler 7))
        { sent := [], sendClosed := false, trace := [] } { id := 5, data := 0 }
      = (Router.New.Register 5 (some (markHandler 7)) []).handleReq
        { sent := [], sendClosed := false, trace := [] } { id := 5, data := 0 })
    ∧ (Router.New.handleReq { sent := [], sendClosed := false, trace := [] }
        { id := 5, data := 0 }
      = ({ sent := [], sendClosed := false, trace := [] }, none)) := by
  have h := claim_C4 Router.New (markHandler 7)
    { sent := [], sendClosed := false, trace := [] } { id := 5, data := 0 } rfl
  exact ⟨h.1, h.2.2 rfl rfl⟩

/-- Claim C5: when the composed handler chain returns a non-nil error, no
response is sent for that request (the resulting session state is exactly the
chain's output state, in particular its `sent` list), the error is recorded
(returned wrapped as "handler err: ..."), and the router's loop continues with
the subsequent requests. -/
theorem claim_C5 (r : Router) (s s1 : SessState) (req : Request)
    (resp : Option Response) (e : GoErr) (rest : List (Option Request))
    (hrun : r.wrappedFor req.id s req = (s1, resp, some e)) :
    r.handleReq s req = (s1, some ("handler err: " ++ e))
    ∧ (r.handleReq s req).1.sent = s1.sent
    ∧ r.Loop s (some req :: rest) = r.Loop s1 rest := by
  have h1 : r.handleReq s req = (s1, some ("handler err: " ++ e)) := by
    unfold Router.handleReq dispatchWith
    rw [hrun]
  refine ⟨h1, by rw [h1], ?_⟩
  show r.Loop (r.handleReq s req).1 rest = r.Loop s1 rest
  rw [h1]

/-- Claim C5, witness: a handler registered for id 1 that returns the error
"boom" yields the wrapped handler error, leaves the session state untouched,
and the loop goes on to process the rest of the inbound source. -/
theorem claim_C5_witness :
    (Router.New.Register 1 (some (errHandler "boom")) []).handleReq
        { sent := [], sendClosed := false, trace := [] } { id := 1, data := 0 }
      = ({ sent := [], sendClosed := false, trace := [] }, some "handler err: boom")
    ∧ (Router.New.Register 1 (some (errHandler "boom")) []).Loop
        { sent := [], sendClosed := false, trace := [] }
        [some { id := 1, data := 0 }]
      = { sent := [], sendClosed := false, trace := [] } := by
  have h := claim_C5 (Router.New.Register 1 (some (errHandler "boom")) [])
    { sent := [], sendClosed := false, trace := [] }
    { sent := [], sendClosed := false, trace := [] }
    { id := 1, data := 0 } none "boom" [] rfl
  exact ⟨h.1, h.2.2⟩

/-- Claim C6: when the composed handler chain returns a nil response and a nil
error, dispatch completes successfully without sending anything: the result is
the chain's output state (no `SendResp`) and a nil error. -/
theorem claim_C6 (r : Router) (s s1 : SessState) (req : Request)
    (hrun : r.wrappedFor req.id s req = (s1, none, none)) :
    r.handleReq s req = (s1, none) ∧ (r.handleReq s req).1.sent = s1.sent := by
  have h1 : r.handleReq s req = (s1, none) := by
    unfold Router.handleReq dispatchWith
    rw [hrun]
  exact ⟨h1, by rw [h1]⟩

/-- Claim C6, witness: a handler for id 3 returning `(nil, nil)` (here
`defaultHandler` itself) makes dispatch finish with no reply and no error. -/
theorem claim_C6_witness :
    (Router.New.Register 3 (some defaultHandler) []).handleReq
        { sent := [], sendClosed := false, trace := [] } { id := 3, data := 0 }
      = ({ sent := [], sendClosed := false, trace := [] }, none) := by
  exact (claim_C6 (Router.New.Register 3 (some defaultHandler) [])
    { sent := [], sendClosed := false, trace := [] }
    { sent := [], sendClosed := false, trace := [] }
    { id := 3, data := 0 } rfl).1

/-- Claim C7: a `SendResp` failure (session already closed for writes) is
non-fatal to the router: `handleReq` returns the wrapped send error and the
chain's output state, the loop continues with the subsequent requests exactly
as it would on success, and the loop stops exactly when the inbound source
closes (returning the current state). -/
theorem claim_C7 (r : Router) (s s1 : SessState) (req : Request) (resp : Response)
    (rest : List (Option Request))
    (hrun : r.wrappedFor req.id s req = (s1, some resp, none))
    (hclosed : s1.sendClosed = true) :
    r.handleReq s req = (s1, some ("session send response err: " ++ "session closed"))
    ∧ r.Loop s (some req :: rest) = r.Loop s1 rest
    ∧ r.Loop s1 [] = s1 := by
  have h1 : r.handleReq s req
      = (s1, some ("session send response err: " ++ "session closed")) := by
    unfold Router.handleReq dispatchWith
    rw [hrun]
    show (match SendResp s1 resp with
      | (s2, some e) => (s2, some ("session send response err: " ++ e))
      | (s2, none) => (s2, none)) = _
    unfold SendResp
    rw [hclosed]
    rfl
  refine ⟨h1, ?_, rfl⟩
  show r.Loop (r.handleReq s req).1 rest = r.Loop s1 rest
  rw [h1]

/-- Claim C7, witness: a handler for id 2 replying `9` on a session whose
write side is closed produces the logged send error, and the loop goes on and
then stops at the close of the inbound source. -/
theorem claim_C7_witness :
    (Router.New.Register 2 (some (respHandler 9)) []).handleReq
        { sent := [], sendClosed := true, trace := [] } { id := 2, data := 0 }
      = ({ sent := [], sendClosed := true, trace := [] },
         some "session send response err: session closed")
    ∧ (Router.New.Register 2 (some (respHandler 9)) []).Loop
        { sent := [], sendClosed := true, trace := [] }
        [some { id := 2, data := 0 }]
      = { sent := [], sendClosed := true, trace := [] } := by
  have h := claim_C7 (Router.New.Register 2 (some (respHandler 9)) [])
    { sent := [], sendClosed := true, trace := [] }
    { sent := [], sendClosed := true, trace := [] }
    { id := 2, data := 0 } 9 [] rfl rfl
  exact ⟨h.1, h.2.1⟩
